import Mathlib

/-!
Shallow embedding of the erevna research-analysis orchestrator
(`src/orchestrator.py`, `src/main.py`) and the untrusted-JSON parsing layer
it builds on (`json.loads` on agent responses).

Python dictionaries are modelled as ordered association lists
(`List (String × Json)`), matching insertion-order semantics; JSON values
are modelled by the inductive `Json`; the `json.loads` call is modelled by
an executable recursive-descent parser `loads`; agent calls (network calls
to the generation service) are modelled as functions
`String → Except String String`, where `Except.error e` models a raised
exception with message `e`.
-/

inductive Json where
  | null : Json
  | bool : Bool → Json
  | num : Int → Json
  | str : String → Json
  | arr : List Json → Json
  | obj : List (String × Json) → Json

abbrev Dict := List (String × Json)

/-- The keys of a Python dict, in insertion order. -/
def dictKeys (d : Dict) : List String := d.map Prod.fst

/-- `d.get(k)` / `d[k]` lookup on a Python dict (first matching key). -/
def dictLookup (k : String) : Dict → Option Json
  | [] => none
  | kv :: rest => if kv.1 = k then some kv.2 else dictLookup k rest

/-- Python dict assignment `d[k] = v`: overwrite in place if the key exists,
otherwise append at the end (insertion order). -/
def dictInsert (d : Dict) (k : String) (v : Json) : Dict :=
  if d.any (fun kv => kv.1 = k) then
    d.map (fun kv => if kv.1 = k then (kv.1, v) else kv)
  else d ++ [(k, v)]

/-- JSON insignificant whitespace. -/
def isWs (c : Char) : Bool := c = ' ' || c = '\n' || c = '\t' || c = '\r'

def skipWs : List Char → List Char
  | [] => []
  | c :: cs => if isWs c then skipWs cs else c :: cs

/-- Decode a JSON string escape character. -/
def escChar (c : Char) : Option Char :=
  if c = '"' then some '"'
  else if c = '\\' then some '\\'
  else if c = '/' then some '/'
  else if c = 'n' then some '\n'
  else if c = 't' then some '\t'
  else if c = 'r' then some '\r'
  else none

/-- Parse the body of a JSON string literal (after the opening quote),
returning the decoded characters and the input remaining after the
closing quote. -/
def parseStrBody : List Char → Option (List Char × List Char)
  | [] => none
  | c :: rest =>
    if c = '"' then some ([], rest)
    else if c = '\\' then
      match rest with
      | [] => none
      | e :: rest2 =>
        match escChar e with
        | some d => (parseStrBody rest2).map (fun p => (d :: p.1, p.2))
        | none => none
    else (parseStrBody rest).map (fun p => (c :: p.1, p.2))

/-- Consume an expected literal character sequence. -/
def dropLit : List Char → List Char → Option (List Char)
  | [], cs => some cs
  | _ :: _, [] => none
  | p :: ps, c :: cs => if c = p then dropLit ps cs else none

/-- Take a maximal run of decimal digits. -/
def parseDigits : List Char → List Char × List Char
  | [] => ([], [])
  | c :: cs =>
    if c.isDigit then
      let p := parseDigits cs
      (c :: p.1, p.2)
    else ([], c :: cs)

def digitsToNat (l : List Char) : Nat :=
  l.foldl (fun a c => a * 10 + (c.toNat - 48)) 0

mutual

/-- Recursive-descent JSON value parser (model of `json.loads`), with a
fuel argument bounding the recursion. -/
def parseValue : Nat → List Char → Option (Json × List Char)
  | 0, _ => none
  | f + 1, cs =>
    match skipWs cs with
    | [] => none
    | c :: rest =>
      if c = '"' then
        match parseStrBody rest with
        | none => none
        | some p => some (Json.str ⟨p.1⟩, p.2)
      else if c = '[' then
        match skipWs rest with
        | [] => none
        | d :: rest2 =>
          if d = ']' then some (Json.arr [], rest2)
          else parseArray f (d :: rest2) []
      else if c = '\x7b' then
        match skipWs rest with
        | [] => none
        | d :: rest2 =>
          if d = '\x7d' then some (Json.obj [], rest2)
          else parseObj f (d :: rest2) []
      else if c = 't' then
        match dropLit ['r', 'u', 'e'] rest with
        | none => none
        | some r => some (Json.bool true, r)
      else if c = 'f' then
        match dropLit ['a', 'l', 's', 'e'] rest with
        | none => none
        | some r => some (Json.bool false, r)
      else if c = 'n' then
        match dropLit ['u', 'l', 'l'] rest with
        | none => none
        | some r => some (Json.null, r)
      else if c = '-' then
        match parseDigits rest with
        | ([], _) => none
        | (ds, r) => some (Json.num (-(digitsToNat ds : Int)), r)
      else if c.isDigit then
        let p := parseDigits (c :: rest)
        some (Json.num (digitsToNat p.1), p.2)
      else none

/-- Parse the elements of a non-empty JSON array (after the opening
bracket, positioned at the first element). -/
def parseArray : Nat → List Char → List Json → Option (Json × List Char)
  | 0, _, _ => none
  | f + 1, cs, acc =>
    match parseValue f cs with
    | none => none
    | some (v, rest) =>
      match skipWs rest with
      | [] => none
      | d :: rest2 =>
        if d = ',' then parseArray f rest2 (acc ++ [v])
        else if d = ']' then some (Json.arr (acc ++ [v]), rest2)
        else none

/-- Parse the members of a non-empty JSON object (after the opening brace,
positioned at the first key); duplicate keys overwrite, as in a Python
dict built by `json.loads`. -/
def parseObj : Nat → List Char → Dict → Option (Json × List Char)
  | 0, _, _ => none
  | f + 1, cs, acc =>
    match cs with
    | [] => none
    | c :: rest =>
      if c = '"' then
        match parseStrBody rest with
        | none => none
        | some (k, rest2) =>
          match skipWs rest2 with
          | [] => none
          | d :: rest3 =>
            if d = ':' then
              match parseValue f rest3 with
              | none => none
              | some (v, rest4) =>
                match skipWs rest4 with
                | [] => none
                | e :: rest5 =>
                  if e = ',' then parseObj f (skipWs rest5) (dictInsert acc ⟨k⟩ v)
                  else if e = '\x7d' then some (Json.obj (dictInsert acc ⟨k⟩ v), rest5)
                  else none
            else none
      else none

end

/-- Model of Python `json.loads`: parse a complete JSON document, requiring
only trailing whitespace after the value. -/
def loads (s : String) : Except String Json :=
  match parseValue (s.data.length + 1) s.data with
  | none => Except.error "Expecting value"
  | some (j, rest) =>
    if skipWs rest = [] then Except.ok j else Except.error "Extra data"

/-- Encode one character of a JSON string literal (canonical serializer). -/
def encChar (c : Char) : List Char :=
  if c = '"' then ['\\', '"']
  else if c = '\\' then ['\\', '\\']
  else [c]

def encStr (l : List Char) : List Char := l.flatMap encChar

/-- A JSON string literal for `s`, quotes included. -/
def strLit (s : String) : List Char := '"' :: (encStr s.data ++ ['"'])

mutual

/-- Canonical compact JSON serializer (model of `json.dumps` without
optional whitespace). -/
def dumpsValue : Json → List Char
  | Json.null => ['n', 'u', 'l', 'l']
  | Json.bool true => ['t', 'r', 'u', 'e']
  | Json.bool false => ['f', 'a', 'l', 's', 'e']
  | Json.num n => (toString n).data
  | Json.str s => strLit s
  | Json.arr vs => '[' :: (dumpsElems vs ++ [']'])
  | Json.obj kvs => '\x7b' :: (dumpsEntries kvs ++ ['\x7d'])

def dumpsElems : List Json → List Char
  | [] => []
  | [v] => dumpsValue v
  | v :: w :: vs => dumpsValue v ++ ',' :: dumpsElems (w :: vs)

def dumpsEntries : Dict → List Char
  | [] => []
  | [(k, v)] => strLit k ++ ':' :: dumpsValue v
  | (k, v) :: kw :: kvs => strLit k ++ ':' :: dumpsValue v ++ ',' :: dumpsEntries (kw :: kvs)

end

def dumps (j : Json) : String := ⟨dumpsValue j⟩

/-- `ResearchAnalysisOrchestrator._default_research_structure`: the
all-defaults research-structure record, with an optional error note
appended to `missing_elements`. -/
def default_research_structure (error : Option String) : Dict :=
  [("research_question", Json.str "Not specified"),
   ("hypothesis", Json.str "Not specified"),
   ("method", Json.str "Not specified"),
   ("variables", Json.arr []),
   ("dataset", Json.str "Not specified"),
   ("evaluation", Json.str "Not specified"),
   ("missing_elements", Json.arr (match error with
     | none => []
     | some e => [Json.str e]))]

/-- `ResearchAnalysisOrchestrator._default_validity_threats`: the
all-defaults validity-threats record, with an optional error note
appended to `mitigation_suggestions`. -/
def default_validity_threats (error : Option String) : Dict :=
  [("internal_validity", Json.arr []),
   ("external_validity", Json.arr []),
   ("construct_validity", Json.arr []),
   ("conclusion_validity", Json.arr []),
   ("mitigation_suggestions", Json.arr (match error with
     | none => []
     | some e => [Json.str e]))]

/-- `ResearchAnalysisOrchestrator._default_literature_scout`: the
all-defaults literature-scout record, with an optional error note
appended to `inferred_topics`. -/
def default_literature_scout (error : Option String) : Dict :=
  [("inferred_topics", Json.arr (match error with
     | none => []
     | some e => [Json.str e])),
   ("search_queries", Json.arr []),
   ("example_related_work", Json.arr [])]

/-- `ResearchAnalysisOrchestrator._merge_defaults`: start from a copy of
the defaults; every parsed key that already exists among the defaults
overwrites that entry, all other parsed keys are dropped. -/
def merge_defaults (defaults : Dict) (parsed : Dict) : Dict :=
  parsed.foldl
    (fun merged kv =>
      if merged.any (fun e => e.1 = kv.1) then
        merged.map (fun e => if e.1 = kv.1 then (e.1, kv.2) else e)
      else merged)
    defaults

/-- `ResearchAnalysisOrchestrator._parse_research_structure`. -/
def parse_research_structure (response : String) : Dict :=
  match loads response with
  | Except.ok (Json.obj kvs) => merge_defaults (default_research_structure none) kvs
  | Except.ok _ =>
    default_research_structure (some "Failed to parse research structure: JSON is not an object")
  | Except.error e =>
    default_research_structure (some ("Failed to parse research structure: " ++ e))

/-- `ResearchAnalysisOrchestrator._parse_validity_threats`. -/
def parse_validity_threats (response : String) : Dict :=
  match loads response with
  | Except.ok (Json.obj kvs) => merge_defaults (default_validity_threats none) kvs
  | Except.ok _ =>
    default_validity_threats (some "Failed to parse validity threats: JSON is not an object")
  | Except.error e =>
    default_validity_threats (some ("Failed to parse validity threats: " ++ e))

/-- `ResearchAnalysisOrchestrator._parse_literature_scout`. -/
def parse_literature_scout (response : String) : Dict :=
  match loads response with
  | Except.ok (Json.obj kvs) => merge_defaults (default_literature_scout none) kvs
  | Except.ok _ =>
    default_literature_scout (some "Failed to parse literature scout: JSON is not an object")
  | Except.error e =>
    default_literature_scout (some ("Failed to parse literature scout: " ++ e))

/-- The three agents' `get_response` methods: each is one synchronous call
to the external generation service, modelled as a function from the input
text to either the raw response text (`Except.ok`) or a raised exception
with message `e` (`Except.error e`). -/
structure Agents where
  research : String → Except String String
  validity : String → Except String String
  literature : String → Except String String

/-- The dictionary returned by `ResearchAnalysisOrchestrator.analyze`,
with its three fixed keys. -/
structure AnalysisResult where
  research_structure : Dict
  validity_threats : Dict
  literature_scout : Dict

/-- A value stored in the `results` map of
`_analyze_downstream_parallel`: either the raw string the future
returned, or the already-synthesized default record from the
exception handler. -/
inductive AgentOutcome where
  | raw : String → AgentOutcome
  | record : Dict → AgentOutcome

/-- One future of `_analyze_downstream_parallel`: the agent call's result,
with an exception converted to the kind's default record carrying an
`"Error: ..."` note. -/
def futureOutcome (call : Except String String)
    (mkDefault : Option String → Dict) : AgentOutcome :=
  match call with
  | Except.ok s => AgentOutcome.raw s
  | Except.error e => AgentOutcome.record (mkDefault (some ("Error: " ++ e)))

/-- The `isinstance(output, str)` re-parsing step of
`_analyze_downstream_parallel`. -/
def resolveOutcome (o : AgentOutcome) (parse : String → Dict) : Dict :=
  match o with
  | AgentOutcome.raw s => parse s
  | AgentOutcome.record d => d

/-- Python `output or fallback` on dict values: a dict is falsy exactly
when it is empty. -/
def orTruthy (d : Dict) (fallback : Dict) : Dict :=
  if d.isEmpty then fallback else d

/-- `ResearchAnalysisOrchestrator._analyze_downstream_parallel`: both
downstream agents run on the stage-1 raw output; each future's exception
is caught and replaced by an error-noted default record; string results
are parsed; a falsy entry would fall back to the plain default record. -/
def analyze_downstream_parallel (ag : Agents) (research_json : String) : Dict × Dict :=
  let validity_output :=
    resolveOutcome (futureOutcome (ag.validity research_json) default_validity_threats)
      parse_validity_threats
  let literature_output :=
    resolveOutcome (futureOutcome (ag.literature research_json) default_literature_scout)
      parse_literature_scout
  (orTruthy validity_output (default_validity_threats none),
   orTruthy literature_output (default_literature_scout none))

/-- `ResearchAnalysisOrchestrator._analyze_downstream_sequential`: the
validity call completes before the literature call starts; an exception
in either propagates uncaught. -/
def analyze_downstream_sequential (ag : Agents) (research_json : String) :
    Except String (Dict × Dict) := do
  let validity_response ← ag.validity research_json
  let literature_response ← ag.literature research_json
  pure (parse_validity_threats validity_response, parse_literature_scout literature_response)

/-- `ResearchAnalysisOrchestrator.analyze`: stage 1 runs first and its raw
output (verbatim, not the parsed record) is the input to both downstream
stages, scheduled per the `parallel` flag; the three records are then
assembled into the result dictionary. -/
def analyze (ag : Agents) (text : String) (parallel : Bool) :
    Except String AnalysisResult := do
  let research_json ← ag.research text
  let research_structure := parse_research_structure research_json
  if parallel then
    let p := analyze_downstream_parallel ag research_json
    pure ⟨research_structure, p.1, p.2⟩
  else
    let p ← analyze_downstream_sequential ag research_json
    pure ⟨research_structure, p.1, p.2⟩

/-- Python `str.strip()`: remove leading and trailing whitespace. -/
def pyStrip (s : String) : String :=
  ⟨((s.data.dropWhile Char.isWhitespace).reverse.dropWhile Char.isWhitespace).reverse⟩

/-- `payload.get(k, default)` on a Python dict. -/
def dictGetD (payload : Dict) (k : String) (default : Json) : Json :=
  match dictLookup k payload with
  | some v => v
  | none => default

/-- The `/analyze` endpoint handler `analyze_research` in `src/main.py`:
validates the payload (`text` a non-empty-after-strip string, `parallel`
a boolean defaulting to true), then invokes the orchestrator with
`parallel=False`. `Except.error (status, detail)` models an
`HTTPException`. -/
def analyze_research (ag : Agents) (payload : Dict) :
    Except (Nat × String) (Except String AnalysisResult) :=
  match dictLookup "text" payload with
  | some (Json.str t) =>
    if pyStrip t = "" then
      Except.error (400, "Field \x27text\x27 must be a non-empty string")
    else
      match dictGetD payload "parallel" (Json.bool true) with
      | Json.bool _ => Except.ok (analyze ag t false)
      | _ => Except.error (400, "Field \x27parallel\x27 must be a boolean")
  | _ => Except.error (400, "Field \x27text\x27 must be a non-empty string")

/-- "All fields present and correctly typed" for the research-structure
record kind: exactly the seven schema fields in canonical order, string
fields holding strings and sequence fields holding sequences of strings. -/
def ResearchWellTyped (d : Dict) : Prop :=
  ∃ q h m vars ds ev miss,
    d = [("research_question", Json.str q),
         ("hypothesis", Json.str h),
         ("method", Json.str m),
         ("variables", Json.arr (List.map Json.str vars)),
         ("dataset", Json.str ds),
         ("evaluation", Json.str ev),
         ("missing_elements", Json.arr (List.map Json.str miss))]

/-- "All fields present and correctly typed" for the validity-threats
record kind. -/
def ValidityWellTyped (d : Dict) : Prop :=
  ∃ iv ev cv lv mit,
    d = [("internal_validity", Json.arr (List.map Json.str iv)),
         ("external_validity", Json.arr (List.map Json.str ev)),
         ("construct_validity", Json.arr (List.map Json.str cv)),
         ("conclusion_validity", Json.arr (List.map Json.str lv)),
         ("mitigation_suggestions", Json.arr (List.map Json.str mit))]

/-- "All fields present and correctly typed" for the literature-scout
record kind. -/
def LiteratureWellTyped (d : Dict) : Prop :=
  ∃ topics queries works,
    d = [("inferred_topics", Json.arr (List.map Json.str topics)),
         ("search_queries", Json.arr (List.map Json.str queries)),
         ("example_related_work", Json.arr (List.map Json.str works))]

/-- A value of one of the two schema field types: a string, or a sequence
of strings. -/
def SchemaValue (v : Json) : Prop :=
  (∃ s, v = Json.str s) ∨ (∃ ss, v = Json.arr (List.map Json.str ss))

/-- Whether a JSON value is a string (Python `isinstance(v, str)`). -/
def isStringValue : Json → Bool
  | Json.str _ => true
  | _ => false

/-- Whether a JSON value is a boolean (Python `isinstance(v, bool)`). -/
def isBoolValue : Json → Bool
  | Json.bool _ => true
  | _ => false

/-- Concrete agent triple whose calls all succeed with empty JSON objects. -/
def okAgents : Agents :=
  ⟨fun _ => Except.ok "\x7b\x7d", fun _ => Except.ok "\x7b\x7d", fun _ => Except.ok "\x7b\x7d"⟩

/-- Concrete agent triple whose validity call always raises. -/
def failValidityAgents : Agents :=
  ⟨fun _ => Except.ok "\x7b\x7d", fun _ => Except.error "boom", fun _ => Except.ok "\x7b\x7d"⟩

/-- Concrete agent triple whose stage-1 call always raises. -/
def failResearchAgents : Agents :=
  ⟨fun _ => Except.error "down", fun _ => Except.ok "\x7b\x7d", fun _ => Except.ok "\x7b\x7d"⟩


/-! ### Dictionary and merge lemmas -/

theorem dictKeys_replace (d : Dict) (k : String) (v : Json) :
    dictKeys (d.map (fun e => if e.1 = k then (e.1, v) else e)) = dictKeys d := by
  induction d with
  | nil => rfl
  | cons kv rest ih =>
    simp only [List.map_cons, dictKeys] at *
    by_cases h : kv.1 = k <;> simp [h, ih]

theorem dictKeys_merge_defaults (kvs : Dict) :
    ∀ d : Dict, dictKeys (merge_defaults d kvs) = dictKeys d := by
  induction kvs with
  | nil => intro d; rfl
  | cons kv rest ih =>
    intro d
    simp only [merge_defaults, List.foldl_cons]
    by_cases h : d.any (fun e => e.1 = kv.1)
    · simpa [merge_defaults, h] using (dictKeys_replace d kv.1 kv.2) ▸ ih _
    · simpa [merge_defaults, h] using ih d


theorem dictKeys_cons (kv : String × Json) (rest : Dict) :
    dictKeys (kv :: rest) = kv.1 :: dictKeys rest := rfl

theorem dictLookup_mem_keys (k : String) (d : Dict) :
    (dictLookup k d).isSome = true ↔ k ∈ dictKeys d := by
  induction d with
  | nil => simp [dictLookup, dictKeys]
  | cons kv rest ih =>
    by_cases h : kv.1 = k
    · simp [dictLookup, h, dictKeys_cons]
    · have h2 : ¬ k = kv.1 := fun he => h he.symm
      simp [dictLookup, h, dictKeys_cons, ih, h2]

theorem dictLookup_none_of_not_mem (k : String) (d : Dict) (h : k ∉ dictKeys d) :
    dictLookup k d = none := by
  cases hc : dictLookup k d with
  | none => rfl
  | some v => exact absurd ((dictLookup_mem_keys k d).mp (by simp [hc])) h

theorem dictLookup_some_of_mem (k : String) (d : Dict) (h : k ∈ dictKeys d) :
    ∃ v, dictLookup k d = some v := by
  have hs := (dictLookup_mem_keys k d).mpr h
  cases hc : dictLookup k d with
  | none => simp [hc] at hs
  | some v => exact ⟨v, rfl⟩

theorem dictAny_eq_mem (d : Dict) (k : String) :
    (d.any (fun e => e.1 = k)) = true ↔ k ∈ dictKeys d := by
  induction d with
  | nil => simp [dictKeys]
  | cons kv rest ih =>
    by_cases h : kv.1 = k
    · simp [h, dictKeys_cons]
    · have h2 : ¬ k = kv.1 := fun he => h he.symm
      simp [h, dictKeys_cons, ih, h2]

theorem dictLookup_replace_self (d : Dict) (k : String) (v : Json) :
    dictLookup k (d.map (fun e => if e.1 = k then (e.1, v) else e)) =
      (dictLookup k d).map (fun _ => v) := by
  induction d with
  | nil => simp [dictLookup]
  | cons kv rest ih =>
    by_cases h : kv.1 = k
    · simp [dictLookup, h]
    · simp [dictLookup, h, ih]

theorem dictLookup_replace_other (d : Dict) (k k' : String) (v : Json) (hne : k' ≠ k) :
    dictLookup k' (d.map (fun e => if e.1 = k then (e.1, v) else e)) =
      dictLookup k' d := by
  induction d with
  | nil => simp [dictLookup]
  | cons kv rest ih =>
    by_cases h : kv.1 = k
    · have h2 : ¬ kv.1 = k' := fun he => hne ((he.symm.trans h))
      simp [dictLookup, h, h2, Ne.symm hne, ih]
    · by_cases h3 : kv.1 = k'
      · simp [dictLookup, h, h3, hne, ih]
      · simp [dictLookup, h, h3, ih]

theorem merge_defaults_lookup (kvs : Dict) :
    ∀ d : Dict, (dictKeys kvs).Nodup → ∀ k : String,
      dictLookup k (merge_defaults d kvs) =
        match dictLookup k kvs with
        | some v => if k ∈ dictKeys d then some v else none
        | none => dictLookup k d := by
  induction kvs with
  | nil =>
    intro d _ k
    rfl
  | cons kv rest ih =>
    intro d hnd k
    have hkv_not : kv.1 ∉ dictKeys rest := by
      rw [dictKeys_cons] at hnd
      exact (List.nodup_cons.mp hnd).1
    have hnd' : (dictKeys rest).Nodup := by
      rw [dictKeys_cons] at hnd
      exact (List.nodup_cons.mp hnd).2
    have hstep : merge_defaults d (kv :: rest) =
        merge_defaults
          (if d.any (fun e => e.1 = kv.1) then
            d.map (fun e => if e.1 = kv.1 then (e.1, kv.2) else e)
           else d) rest := rfl
    rw [hstep]
    by_cases hany : (d.any (fun e => e.1 = kv.1)) = true
    · have hmem : kv.1 ∈ dictKeys d := (dictAny_eq_mem d kv.1).mp hany
      rw [if_pos hany, ih _ hnd' k]
      by_cases hk : k = kv.1
      · have hknot2 : k ∉ dictKeys rest := by rw [hk]; exact hkv_not
        have hrest : dictLookup k rest = none := dictLookup_none_of_not_mem k rest hknot2
        have hmem2 : k ∈ dictKeys d := by rw [hk]; exact hmem
        obtain ⟨w, hw⟩ := dictLookup_some_of_mem k d hmem2
        have hhead : kv.1 = k := hk.symm
        simp [dictLookup, hhead, hrest, dictLookup_replace_self, hw, hmem2]
      · have hne : ¬ kv.1 = k := fun he => hk he.symm
        rw [dictLookup_replace_other d kv.1 k kv.2 hk]
        cases hr : dictLookup k rest with
        | none => simp [dictLookup, hne, hr]
        | some w => simp [dictLookup, hne, hr, dictKeys_replace]
    · have hmem : kv.1 ∉ dictKeys d := fun hm => hany ((dictAny_eq_mem d kv.1).mpr hm)
      rw [if_neg hany, ih _ hnd' k]
      by_cases hk : k = kv.1
      · have hknot2 : k ∉ dictKeys rest := by rw [hk]; exact hkv_not
        have hrest : dictLookup k rest = none := dictLookup_none_of_not_mem k rest hknot2
        have hmem2 : k ∉ dictKeys d := by rw [hk]; exact hmem
        have hd : dictLookup k d = none := dictLookup_none_of_not_mem k d hmem2
        have hhead : kv.1 = k := hk.symm
        simp [dictLookup, hhead, hrest, hd, hmem2]
      · have hne : ¬ kv.1 = k := fun he => hk he.symm
        cases hr : dictLookup k rest with
        | none => simp [dictLookup, hne, hr]
        | some w => simp [dictLookup, hne, hr]

/-! ### Keys of defaults and parse results -/

theorem default_research_structure_keys (e : Option String) :
    dictKeys (default_research_structure e) =
      ["research_question", "hypothesis", "method", "variables", "dataset",
       "evaluation", "missing_elements"] := by
  cases e <;> rfl

theorem default_validity_threats_keys (e : Option String) :
    dictKeys (default_validity_threats e) =
      ["internal_validity", "external_validity", "construct_validity",
       "conclusion_validity", "mitigation_suggestions"] := by
  cases e <;> rfl

theorem default_literature_scout_keys (e : Option String) :
    dictKeys (default_literature_scout e) =
      ["inferred_topics", "search_queries", "example_related_work"] := by
  cases e <;> rfl

theorem parse_research_structure_keys (s : String) :
    dictKeys (parse_research_structure s) =
      dictKeys (default_research_structure none) := by
  unfold parse_research_structure
  cases h : loads s with
  | error e => simp [default_research_structure_keys]
  | ok j =>
    cases j <;> simp [dictKeys_merge_defaults, default_research_structure_keys]

theorem parse_validity_threats_keys (s : String) :
    dictKeys (parse_validity_threats s) =
      dictKeys (default_validity_threats none) := by
  unfold parse_validity_threats
  cases h : loads s with
  | error e => simp [default_validity_threats_keys]
  | ok j =>
    cases j <;> simp [dictKeys_merge_defaults, default_validity_threats_keys]

theorem parse_literature_scout_keys (s : String) :
    dictKeys (parse_literature_scout s) =
      dictKeys (default_literature_scout none) := by
  unfold parse_literature_scout
  cases h : loads s with
  | error e => simp [default_literature_scout_keys]
  | ok j =>
    cases j <;> simp [dictKeys_merge_defaults, default_literature_scout_keys]

theorem ne_nil_of_keys_ne_nil (d : Dict) (h : dictKeys d ≠ []) : d ≠ [] := by
  intro he
  exact h (by simp [he, dictKeys])

theorem parse_validity_threats_ne_nil (s : String) : parse_validity_threats s ≠ [] := by
  apply ne_nil_of_keys_ne_nil
  rw [parse_validity_threats_keys, default_validity_threats_keys]
  simp

theorem parse_literature_scout_ne_nil (s : String) : parse_literature_scout s ≠ [] := by
  apply ne_nil_of_keys_ne_nil
  rw [parse_literature_scout_keys, default_literature_scout_keys]
  simp

theorem default_validity_threats_ne_nil (e : Option String) :
    default_validity_threats e ≠ [] := by
  apply ne_nil_of_keys_ne_nil
  rw [default_validity_threats_keys]
  simp

theorem default_literature_scout_ne_nil (e : Option String) :
    default_literature_scout e ≠ [] := by
  apply ne_nil_of_keys_ne_nil
  rw [default_literature_scout_keys]
  simp

/-! ### Objects produced by the parser have duplicate-free keys -/

theorem dictKeys_dictInsert (d : Dict) (k : String) (v : Json) :
    dictKeys (dictInsert d k v) =
      if k ∈ dictKeys d then dictKeys d else dictKeys d ++ [k] := by
  unfold dictInsert
  by_cases h : (d.any (fun kv => kv.1 = k)) = true
  · rw [if_pos h, if_pos ((dictAny_eq_mem d k).mp h)]
    exact dictKeys_replace d k v
  · rw [if_neg h, if_neg (fun hm => h ((dictAny_eq_mem d k).mpr hm))]
    simp [dictKeys]

theorem dictInsert_nodup (d : Dict) (k : String) (v : Json)
    (h : (dictKeys d).Nodup) : (dictKeys (dictInsert d k v)).Nodup := by
  rw [dictKeys_dictInsert]
  by_cases hm : k ∈ dictKeys d
  · rwa [if_pos hm]
  · rw [if_neg hm]
    simpa using List.Nodup.append h (by simp) (by simpa using hm)

theorem parseObj_nodup (f : Nat) :
    ∀ cs acc j rest, parseObj f cs acc = some (j, rest) →
      (dictKeys acc).Nodup →
      ∀ kvs, j = Json.obj kvs → (dictKeys kvs).Nodup := by
  induction f with
  | zero => intro cs acc j rest h; simp [parseObj] at h
  | succ f ih =>
    intro cs acc j rest h hacc kvs hj
    simp only [parseObj] at h
    repeat' split at h
    all_goals first
      | (exfalso; simp at h; done)
      | exact ih _ _ _ _ h (dictInsert_nodup _ _ _ hacc) kvs hj
      | (simp only [Option.some.injEq, Prod.mk.injEq] at h
         obtain ⟨h1, h2⟩ := h
         subst hj
         injection h1 with h3
         rw [← h3]
         exact dictInsert_nodup _ _ _ hacc)

theorem parseArray_shape (f : Nat) :
    ∀ cs acc j rest, parseArray f cs acc = some (j, rest) → ∃ l, j = Json.arr l := by
  induction f with
  | zero => intro cs acc j rest h; simp [parseArray] at h
  | succ f ih =>
    intro cs acc j rest h
    simp only [parseArray] at h
    repeat' split at h
    all_goals first
      | (exfalso; simp at h; done)
      | exact ih _ _ _ _ h
      | (simp only [Option.some.injEq, Prod.mk.injEq] at h
         exact ⟨_, h.1.symm⟩)

theorem parseValue_obj_nodup (f : Nat) (cs : List Char) (kvs : Dict) (rest : List Char)
    (h : parseValue f cs = some (Json.obj kvs, rest)) : (dictKeys kvs).Nodup := by
  cases f with
  | zero => simp [parseValue] at h
  | succ f =>
    simp only [parseValue] at h
    repeat' split at h
    all_goals first
      | (exfalso; simp at h; done)
      | (exfalso; obtain ⟨l, hl⟩ := parseArray_shape _ _ _ _ _ h; simp at hl; done)
      | exact parseObj_nodup f _ _ _ _ h (by simp [dictKeys]) kvs rfl
      | (simp only [Option.some.injEq, Prod.mk.injEq] at h
         injection h.1 with h3
         rw [← h3]
         simp [dictKeys])

theorem loads_obj_nodup (s : String) (kvs : Dict)
    (h : loads s = Except.ok (Json.obj kvs)) : (dictKeys kvs).Nodup := by
  unfold loads at h
  split at h
  · exact absurd h (by simp)
  · rename_i j rest heq
    split at h
    · simp only [Except.ok.injEq] at h
      rw [h] at heq
      exact parseValue_obj_nodup _ _ _ _ heq
    · exact absurd h (by simp)

/-! ### The parser inverts the canonical serializer -/

theorem skipWs_cons (c : Char) (cs : List Char) :
    skipWs (c :: cs) = if isWs c then skipWs cs else c :: cs := rfl

theorem String_mk_data (s : String) : String.mk s.data = s := rfl

theorem encStr_nil : encStr [] = [] := rfl

theorem encStr_cons (c : Char) (l : List Char) :
    encStr (c :: l) = encChar c ++ encStr l := rfl

theorem parseStrBody_cons (c : Char) (rest : List Char) :
    parseStrBody (c :: rest) =
      (if c = '"' then some ([], rest)
       else if c = '\\' then
         match rest with
         | [] => none
         | e :: rest2 =>
           match escChar e with
           | some d => (parseStrBody rest2).map (fun p => (d :: p.1, p.2))
           | none => none
       else (parseStrBody rest).map (fun p => (c :: p.1, p.2))) := by
  rw [parseStrBody.eq_def]

theorem parseStrBody_enc (l : List Char) :
    ∀ rest, parseStrBody (encStr l ++ '"' :: rest) = some (l, rest) := by
  induction l with
  | nil =>
    intro rest
    simp [encStr_nil, parseStrBody_cons]
  | cons c l ih =>
    intro rest
    by_cases hq : c = '"'
    · subst hq
      simp [encStr_cons, encChar, parseStrBody_cons, escChar, ih]
    · by_cases hb : c = '\\'
      · subst hb
        simp [encStr_cons, encChar, parseStrBody_cons, escChar, ih]
      · simp [encStr_cons, encChar, parseStrBody_cons, hq, hb, ih]

theorem parseValue_strLit (f : Nat) (s : String) (rest : List Char) (hf : 0 < f) :
    parseValue f (strLit s ++ rest) = some (Json.str s, rest) := by
  cases f with
  | zero => exact absurd hf (by simp)
  | succ f =>
    have harr : strLit s ++ rest = '"' :: (encStr s.data ++ '"' :: rest) := by
      simp [strLit]
    rw [harr]
    simp only [parseValue, skipWs_cons]
    simp [isWs, parseStrBody_enc, String_mk_data]

theorem dumpsValue_str (s : String) : dumpsValue (Json.str s) = strLit s := by
  rw [dumpsValue.eq_def]

theorem dumpsValue_arr (vs : List Json) :
    dumpsValue (Json.arr vs) = '[' :: (dumpsElems vs ++ [']']) := by
  rw [dumpsValue.eq_def]

theorem dumpsValue_obj (kvs : Dict) :
    dumpsValue (Json.obj kvs) = '\x7b' :: (dumpsEntries kvs ++ ['\x7d']) := by
  rw [dumpsValue.eq_def]

theorem dumpsElems_single (v : Json) : dumpsElems [v] = dumpsValue v := by
  rw [dumpsElems.eq_def]

theorem dumpsElems_pair (v w : Json) (vs : List Json) :
    dumpsElems (v :: w :: vs) = dumpsValue v ++ ',' :: dumpsElems (w :: vs) := by
  rw [dumpsElems.eq_def]

theorem strLit_length (s : String) : (strLit s).length = (encStr s.data).length + 2 := by
  simp [strLit]

theorem parseArray_strs (ss : List String) :
    ∀ (s0 : String) (f : Nat) (acc : List Json) (rest : List Char),
      (dumpsElems (List.map Json.str (s0 :: ss))).length < f →
      parseArray f (dumpsElems (List.map Json.str (s0 :: ss)) ++ ']' :: rest) acc =
        some (Json.arr (acc ++ List.map Json.str (s0 :: ss)), rest) := by
  induction ss with
  | nil =>
    intro s0 f acc rest hf
    simp only [List.map_cons, List.map_nil, dumpsElems_single, dumpsValue_str] at hf ⊢
    cases f with
    | zero => omega
    | succ f =>
      have hf0 : 0 < f := by
        have := strLit_length s0
        omega
      simp only [parseArray, parseValue_strLit f s0 (']' :: rest) hf0, skipWs_cons]
      simp [isWs]
  | cons s1 ss ih =>
    intro s0 f acc rest hf
    simp only [List.map_cons, dumpsElems_pair, dumpsValue_str] at hf ⊢
    cases f with
    | zero => omega
    | succ f =>
      have hf0 : 0 < f := by
        have := strLit_length s0
        simp only [List.length_append, List.length_cons] at hf
        omega
      have harr : (strLit s0 ++ ',' :: dumpsElems (Json.str s1 :: List.map Json.str ss)) ++ ']' :: rest =
          strLit s0 ++ ',' :: (dumpsElems (Json.str s1 :: List.map Json.str ss) ++ ']' :: rest) := by
        simp
      rw [harr]
      simp only [parseArray, parseValue_strLit f s0 _ hf0, skipWs_cons]
      have hbound : (dumpsElems (Json.str s1 :: List.map Json.str ss)).length < f := by
        simp only [List.length_append, List.length_cons] at hf
        have := strLit_length s0
        omega
      have hih := ih s1 f (acc ++ [Json.str s0]) rest (by simpa [List.map_cons] using hbound)
      simp only [List.map_cons] at hih
      simp [isWs, hih]

theorem dumpsElems_str_head (s0 : String) (vs : List Json) :
    ∃ tail, dumpsElems (Json.str s0 :: vs) = '"' :: tail := by
  cases vs with
  | nil =>
    refine ⟨encStr s0.data ++ ['"'], ?_⟩
    rw [dumpsElems_single, dumpsValue_str, strLit]
  | cons w ws =>
    refine ⟨(encStr s0.data ++ ['"']) ++ ',' :: dumpsElems (w :: ws), ?_⟩
    rw [dumpsElems_pair, dumpsValue_str, strLit]
    simp

theorem parseValue_schema (v : Json) (hv : SchemaValue v) :
    ∀ (f : Nat) (rest : List Char), (dumpsValue v).length < f →
      parseValue f (dumpsValue v ++ rest) = some (v, rest) := by
  rcases hv with ⟨s, rfl⟩ | ⟨ss, rfl⟩
  · intro f rest hf
    rw [dumpsValue_str]
    exact parseValue_strLit f s rest (by rw [dumpsValue_str] at hf; omega)
  · cases ss with
    | nil =>
      intro f rest hf
      rw [dumpsValue_arr] at hf ⊢
      cases f with
      | zero => omega
      | succ f =>
        simp only [List.map_nil, dumpsElems.eq_def, List.nil_append, List.cons_append,
          parseValue, skipWs_cons]
        simp [skipWs_cons, isWs]
    | cons s0 ss' =>
      intro f rest hf
      rw [dumpsValue_arr] at hf ⊢
      cases f with
      | zero => omega
      | succ f =>
        rw [List.map_cons] at hf ⊢
        obtain ⟨tail, htail⟩ := dumpsElems_str_head s0 (List.map Json.str ss')
        have harr : ('[' :: (dumpsElems (Json.str s0 :: List.map Json.str ss') ++ [']'])) ++ rest =
            '[' :: (dumpsElems (Json.str s0 :: List.map Json.str ss') ++ ']' :: rest) := by
          simp
        rw [harr]
        simp only [parseValue, skipWs_cons]
        have hbound : (dumpsElems (Json.str s0 :: List.map Json.str ss')).length < f := by
          simp only [List.length_cons, List.length_append] at hf
          omega
        have hpa := parseArray_strs ss' s0 f [] rest (by simpa [List.map_cons] using hbound)
        simp only [List.map_cons, List.nil_append] at hpa
        rw [htail] at hpa ⊢
        simp only [List.cons_append] at hpa
        simp [skipWs_cons, isWs, hpa]

theorem dumpsEntries_single (k : String) (v : Json) :
    dumpsEntries [(k, v)] = strLit k ++ ':' :: dumpsValue v := by
  rw [dumpsEntries.eq_def]

theorem dumpsEntries_pair (k : String) (v : Json) (kw : String × Json) (kvs : Dict) :
    dumpsEntries ((k, v) :: kw :: kvs) =
      strLit k ++ ':' :: dumpsValue v ++ ',' :: dumpsEntries (kw :: kvs) := by
  rw [dumpsEntries.eq_def]

theorem dumpsEntries_head_quote (kw : String × Json) (kvs : Dict) :
    ∃ tail, dumpsEntries (kw :: kvs) = '"' :: tail := by
  obtain ⟨k, v⟩ := kw
  cases kvs with
  | nil =>
    refine ⟨(encStr k.data ++ ['"']) ++ ':' :: dumpsValue v, ?_⟩
    rw [dumpsEntries_single, strLit]
    simp
  | cons kw' kvs' =>
    refine ⟨(encStr k.data ++ ['"']) ++ ':' :: dumpsValue v ++ ',' :: dumpsEntries (kw' :: kvs'), ?_⟩
    rw [dumpsEntries_pair, strLit]
    simp

theorem parseObj_entries (kvs : Dict) :
    ∀ (kv0 : String × Json) (f : Nat) (acc : Dict) (rest : List Char),
      SchemaValue kv0.2 → (∀ kv ∈ kvs, SchemaValue kv.2) →
      (dumpsEntries (kv0 :: kvs)).length < f →
      parseObj f (dumpsEntries (kv0 :: kvs) ++ '\x7d' :: rest) acc =
        some (Json.obj (List.foldl (fun a kv => dictInsert a kv.1 kv.2) acc (kv0 :: kvs)), rest) := by
  induction kvs with
  | nil =>
    rintro ⟨k0, v0⟩ f acc rest hv0 _ hf
    rw [dumpsEntries_single] at hf ⊢
    cases f with
    | zero => omega
    | succ f =>
      have hshape : (strLit k0 ++ ':' :: dumpsValue v0) ++ '\x7d' :: rest =
          '"' :: (encStr k0.data ++ '"' :: ':' :: (dumpsValue v0 ++ '\x7d' :: rest)) := by
        rw [strLit]
        simp
      rw [hshape]
      have hbound : (dumpsValue v0).length < f := by
        have := strLit_length k0
        simp only [List.length_append, List.length_cons] at hf
        omega
      have hpv := parseValue_schema v0 hv0 f ('\x7d' :: rest) hbound
      simp only [parseObj]
      simp [parseStrBody_enc, skipWs_cons, isWs, hpv, String_mk_data, List.foldl]
  | cons kw kvs' ih =>
    rintro ⟨k0, v0⟩ f acc rest hv0 htail hf
    rw [dumpsEntries_pair] at hf ⊢
    cases f with
    | zero => omega
    | succ f =>
      have hshape : (strLit k0 ++ ':' :: dumpsValue v0 ++ ',' :: dumpsEntries (kw :: kvs')) ++ '\x7d' :: rest =
          '"' :: (encStr k0.data ++ '"' :: ':' ::
            (dumpsValue v0 ++ ',' :: (dumpsEntries (kw :: kvs') ++ '\x7d' :: rest))) := by
        rw [strLit]
        simp
      rw [hshape]
      have hbound : (dumpsValue v0).length < f := by
        have := strLit_length k0
        simp only [List.length_append, List.length_cons] at hf
        omega
      have hpv := parseValue_schema v0 hv0 f (',' :: (dumpsEntries (kw :: kvs') ++ '\x7d' :: rest)) hbound
      have hbound2 : (dumpsEntries (kw :: kvs')).length < f := by
        have := strLit_length k0
        simp only [List.length_append, List.length_cons] at hf
        omega
      have hih := ih kw f (dictInsert acc k0 v0) rest (htail kw (by simp))
        (fun kv hkv => htail kv (by simp [hkv])) hbound2
      obtain ⟨tl, htl⟩ := dumpsEntries_head_quote kw kvs'
      rw [htl] at hih hpv ⊢
      simp only [List.cons_append] at hih hpv
      simp only [parseObj]
      simp [parseStrBody_enc, skipWs_cons, isWs, hpv, String_mk_data, hih]

theorem parseValue_objSchema (kv0 : String × Json) (kvs : Dict)
    (hall : ∀ kv ∈ (kv0 :: kvs), SchemaValue kv.2) (f : Nat) (rest : List Char)
    (hf : (dumpsValue (Json.obj (kv0 :: kvs))).length < f) :
    parseValue f (dumpsValue (Json.obj (kv0 :: kvs)) ++ rest) =
      some (Json.obj (List.foldl (fun a kv => dictInsert a kv.1 kv.2) [] (kv0 :: kvs)), rest) := by
  rw [dumpsValue_obj] at hf ⊢
  cases f with
  | zero => omega
  | succ f =>
    obtain ⟨tl, htl⟩ := dumpsEntries_head_quote kv0 kvs
    have hshape : ('\x7b' :: (dumpsEntries (kv0 :: kvs) ++ ['\x7d'])) ++ rest =
        '\x7b' :: (dumpsEntries (kv0 :: kvs) ++ '\x7d' :: rest) := by
      simp
    rw [hshape]
    have hbound : (dumpsEntries (kv0 :: kvs)).length < f := by
      simp only [List.length_cons, List.length_append] at hf
      omega
    have hpo := parseObj_entries kvs kv0 f [] rest (hall kv0 (by simp))
      (fun kv hkv => hall kv (by simp [hkv])) hbound
    rw [htl] at hpo ⊢
    simp only [List.cons_append] at hpo
    simp only [parseValue, skipWs_cons]
    simp [skipWs_cons, isWs, hpo]

theorem loads_dumps_objSchema (kv0 : String × Json) (kvs : Dict)
    (hall : ∀ kv ∈ (kv0 :: kvs), SchemaValue kv.2) :
    loads (dumps (Json.obj (kv0 :: kvs))) =
      Except.ok (Json.obj (List.foldl (fun a kv => dictInsert a kv.1 kv.2) [] (kv0 :: kvs))) := by
  unfold loads dumps
  have hpv := parseValue_objSchema kv0 kvs hall
    ((dumpsValue (Json.obj (kv0 :: kvs))).length + 1) [] (by omega)
  rw [show dumpsValue (Json.obj (kv0 :: kvs)) ++ ([] : List Char) =
      dumpsValue (Json.obj (kv0 :: kvs)) from by simp] at hpv
  rw [show (String.mk (dumpsValue (Json.obj (kv0 :: kvs)))).data =
      dumpsValue (Json.obj (kv0 :: kvs)) from rfl]
  rw [hpv]
  simp [skipWs]

theorem schemaValue_str (s : String) : SchemaValue (Json.str s) := Or.inl ⟨s, rfl⟩

theorem schemaValue_strArr (l : List String) :
    SchemaValue (Json.arr (List.map Json.str l)) := Or.inr ⟨l, rfl⟩

/-- C9: for every record of any kind in which all fields are present and
correctly typed, parsing the canonical JSON serialization of that record
returns a record equal to the original (round-trip law). -/
theorem c9_reparse_roundtrip :
    (∀ d : Dict, ResearchWellTyped d → parse_research_structure (dumps (Json.obj d)) = d) ∧
    (∀ d : Dict, ValidityWellTyped d → parse_validity_threats (dumps (Json.obj d)) = d) ∧
    (∀ d : Dict, LiteratureWellTyped d → parse_literature_scout (dumps (Json.obj d)) = d) := by
  refine ⟨?_, ?_, ?_⟩
  · intro d hd
    obtain ⟨q, h, m, vars, ds, ev, miss, rfl⟩ := hd
    have hall : ∀ kv ∈ (("research_question", Json.str q) ::
        [("hypothesis", Json.str h), ("method", Json.str m),
         ("variables", Json.arr (List.map Json.str vars)), ("dataset", Json.str ds),
         ("evaluation", Json.str ev),
         ("missing_elements", Json.arr (List.map Json.str miss))]), SchemaValue kv.2 := by
      intro kv hkv
      simp only [List.mem_cons, List.not_mem_nil, or_false] at hkv
      rcases hkv with rfl | rfl | rfl | rfl | rfl | rfl | rfl
      · exact schemaValue_str q
      · exact schemaValue_str h
      · exact schemaValue_str m
      · exact schemaValue_strArr vars
      · exact schemaValue_str ds
      · exact schemaValue_str ev
      · exact schemaValue_strArr miss
    have hload := loads_dumps_objSchema _ _ hall
    have hfold : List.foldl (fun a kv => dictInsert a kv.1 kv.2) ([] : Dict)
        (("research_question", Json.str q) ::
          [("hypothesis", Json.str h), ("method", Json.str m),
           ("variables", Json.arr (List.map Json.str vars)), ("dataset", Json.str ds),
           ("evaluation", Json.str ev),
           ("missing_elements", Json.arr (List.map Json.str miss))]) =
        [("research_question", Json.str q), ("hypothesis", Json.str h), ("method", Json.str m),
         ("variables", Json.arr (List.map Json.str vars)), ("dataset", Json.str ds),
         ("evaluation", Json.str ev),
         ("missing_elements", Json.arr (List.map Json.str miss))] := by
      simp [dictInsert]
    rw [hfold] at hload
    unfold parse_research_structure
    rw [hload]
    simp [merge_defaults, default_research_structure]
  · intro d hd
    obtain ⟨iv, ev, cv, lv, mit, rfl⟩ := hd
    have hall : ∀ kv ∈ (("internal_validity", Json.arr (List.map Json.str iv)) ::
        [("external_validity", Json.arr (List.map Json.str ev)),
         ("construct_validity", Json.arr (List.map Json.str cv)),
         ("conclusion_validity", Json.arr (List.map Json.str lv)),
         ("mitigation_suggestions", Json.arr (List.map Json.str mit))]), SchemaValue kv.2 := by
      intro kv hkv
      simp only [List.mem_cons, List.not_mem_nil, or_false] at hkv
      rcases hkv with rfl | rfl | rfl | rfl | rfl
      · exact schemaValue_strArr iv
      · exact schemaValue_strArr ev
      · exact schemaValue_strArr cv
      · exact schemaValue_strArr lv
      · exact schemaValue_strArr mit
    have hload := loads_dumps_objSchema _ _ hall
    have hfold : List.foldl (fun a kv => dictInsert a kv.1 kv.2) ([] : Dict)
        (("internal_validity", Json.arr (List.map Json.str iv)) ::
          [("external_validity", Json.arr (List.map Json.str ev)),
           ("construct_validity", Json.arr (List.map Json.str cv)),
           ("conclusion_validity", Json.arr (List.map Json.str lv)),
           ("mitigation_suggestions", Json.arr (List.map Json.str mit))]) =
        [("internal_validity", Json.arr (List.map Json.str iv)),
         ("external_validity", Json.arr (List.map Json.str ev)),
         ("construct_validity", Json.arr (List.map Json.str cv)),
         ("conclusion_validity", Json.arr (List.map Json.str lv)),
         ("mitigation_suggestions", Json.arr (List.map Json.str mit))] := by
      simp [dictInsert]
    rw [hfold] at hload
    unfold parse_validity_threats
    rw [hload]
    simp [merge_defaults, default_validity_threats]
  · intro d hd
    obtain ⟨topics, queries, works, rfl⟩ := hd
    have hall : ∀ kv ∈ (("inferred_topics", Json.arr (List.map Json.str topics)) ::
        [("search_queries", Json.arr (List.map Json.str queries)),
         ("example_related_work", Json.arr (List.map Json.str works))]), SchemaValue kv.2 := by
      intro kv hkv
      simp only [List.mem_cons, List.not_mem_nil, or_false] at hkv
      rcases hkv with rfl | rfl | rfl
      · exact schemaValue_strArr topics
      · exact schemaValue_strArr queries
      · exact schemaValue_strArr works
    have hload := loads_dumps_objSchema _ _ hall
    have hfold : List.foldl (fun a kv => dictInsert a kv.1 kv.2) ([] : Dict)
        (("inferred_topics", Json.arr (List.map Json.str topics)) ::
          [("search_queries", Json.arr (List.map Json.str queries)),
           ("example_related_work", Json.arr (List.map Json.str works))]) =
        [("inferred_topics", Json.arr (List.map Json.str topics)),
         ("search_queries", Json.arr (List.map Json.str queries)),
         ("example_related_work", Json.arr (List.map Json.str works))] := by
      simp [dictInsert]
    rw [hfold] at hload
    unfold parse_literature_scout
    rw [hload]
    simp [merge_defaults, default_literature_scout]

/-- Witness for C9: the round-trip law applied to a concrete well-typed
record of each kind. -/
theorem c9_roundtrip_witness :
    parse_research_structure (dumps (Json.obj (default_research_structure none))) =
        default_research_structure none ∧
    parse_validity_threats (dumps (Json.obj (default_validity_threats none))) =
        default_validity_threats none ∧
    parse_literature_scout (dumps (Json.obj (default_literature_scout none))) =
        default_literature_scout none :=
  ⟨c9_reparse_roundtrip.1 _
      ⟨"Not specified", "Not specified", "Not specified", [], "Not specified",
       "Not specified", [], rfl⟩,
   c9_reparse_roundtrip.2.1 _ ⟨[], [], [], [], [], rfl⟩,
   c9_reparse_roundtrip.2.2 _ ⟨[], [], [], rfl⟩⟩

/-! ### Orchestrator unfolding lemmas -/

theorem analyze_research_err (ag : Agents) (text : String) (e : String) (p : Bool)
    (hr : ag.research text = Except.error e) :
    analyze ag text p = Except.error e := by
  unfold analyze
  rw [hr]
  rfl

theorem analyze_parallel_eq (ag : Agents) (text raw : String)
    (hr : ag.research text = Except.ok raw) :
    analyze ag text true = Except.ok
      ⟨parse_research_structure raw,
       (analyze_downstream_parallel ag raw).1,
       (analyze_downstream_parallel ag raw).2⟩ := by
  unfold analyze
  rw [hr]
  rfl

theorem analyze_sequential_eq (ag : Agents) (text raw : String)
    (hr : ag.research text = Except.ok raw) :
    analyze ag text false =
      (analyze_downstream_sequential ag raw).map
        (fun p => ⟨parse_research_structure raw, p.1, p.2⟩) := by
  unfold analyze
  rw [hr]
  cases hs : analyze_downstream_sequential ag raw with
  | error e =>
    show Except.bind _ _ = _
    simp [Except.bind, hs, Except.map]
  | ok p =>
    show Except.bind _ _ = _
    simp [Except.bind, hs, Except.map]

theorem sequential_ok (ag : Agents) (raw vs ls : String)
    (hv : ag.validity raw = Except.ok vs) (hl : ag.literature raw = Except.ok ls) :
    analyze_downstream_sequential ag raw =
      Except.ok (parse_validity_threats vs, parse_literature_scout ls) := by
  unfold analyze_downstream_sequential
  rw [hv]
  show Except.bind _ _ = _
  rw [hl]
  rfl

theorem sequential_err_validity (ag : Agents) (raw e : String)
    (hv : ag.validity raw = Except.error e) :
    analyze_downstream_sequential ag raw = Except.error e := by
  unfold analyze_downstream_sequential
  rw [hv]
  rfl

theorem sequential_err_literature (ag : Agents) (raw vs e : String)
    (hv : ag.validity raw = Except.ok vs) (hl : ag.literature raw = Except.error e) :
    analyze_downstream_sequential ag raw = Except.error e := by
  unfold analyze_downstream_sequential
  rw [hv]
  show Except.bind _ _ = _
  rw [hl]
  rfl

theorem parallel_validity_ok (ag : Agents) (raw vs : String)
    (hv : ag.validity raw = Except.ok vs) :
    (analyze_downstream_parallel ag raw).1 = parse_validity_threats vs := by
  unfold analyze_downstream_parallel futureOutcome resolveOutcome orTruthy
  rw [hv]
  simp [List.isEmpty_iff, parse_validity_threats_ne_nil]

theorem parallel_validity_err (ag : Agents) (raw e : String)
    (hv : ag.validity raw = Except.error e) :
    (analyze_downstream_parallel ag raw).1 =
      default_validity_threats (some ("Error: " ++ e)) := by
  unfold analyze_downstream_parallel futureOutcome resolveOutcome orTruthy
  rw [hv]
  simp [List.isEmpty_iff, default_validity_threats_ne_nil]

theorem parallel_literature_ok (ag : Agents) (raw ls : String)
    (hl : ag.literature raw = Except.ok ls) :
    (analyze_downstream_parallel ag raw).2 = parse_literature_scout ls := by
  unfold analyze_downstream_parallel futureOutcome resolveOutcome orTruthy
  rw [hl]
  simp [List.isEmpty_iff, parse_literature_scout_ne_nil]

theorem parallel_literature_err (ag : Agents) (raw e : String)
    (hl : ag.literature raw = Except.error e) :
    (analyze_downstream_parallel ag raw).2 =
      default_literature_scout (some ("Error: " ++ e)) := by
  unfold analyze_downstream_parallel futureOutcome resolveOutcome orTruthy
  rw [hl]
  simp [List.isEmpty_iff, default_literature_scout_ne_nil]

theorem parallel_validity_keys (ag : Agents) (raw : String) :
    dictKeys (analyze_downstream_parallel ag raw).1 =
      dictKeys (default_validity_threats none) := by
  cases hv : ag.validity raw with
  | ok vs => rw [parallel_validity_ok ag raw vs hv, parse_validity_threats_keys]
  | error e =>
    rw [parallel_validity_err ag raw e hv, default_validity_threats_keys,
      default_validity_threats_keys]

theorem parallel_literature_keys (ag : Agents) (raw : String) :
    dictKeys (analyze_downstream_parallel ag raw).2 =
      dictKeys (default_literature_scout none) := by
  cases hl : ag.literature raw with
  | ok ls => rw [parallel_literature_ok ag raw ls hl, parse_literature_scout_keys]
  | error e =>
    rw [parallel_literature_err ag raw e hl, default_literature_scout_keys,
      default_literature_scout_keys]

/-! ### Claims -/

/-- C1: a terminating `analyze` call, for any input text and either value of
the parallel flag, either raises (returns `Except.error`) or returns an
`AnalysisResult` holding exactly one record per kind, each carrying every
field of its kind; no partially populated result is ever returned. -/
theorem c1_analyze_fully_shaped (ag : Agents) (text : String) (parallel : Bool)
    (r : AnalysisResult) (h : analyze ag text parallel = Except.ok r) :
    dictKeys r.research_structure =
      ["research_question", "hypothesis", "method", "variables", "dataset",
       "evaluation", "missing_elements"] ∧
    dictKeys r.validity_threats =
      ["internal_validity", "external_validity", "construct_validity",
       "conclusion_validity", "mitigation_suggestions"] ∧
    dictKeys r.literature_scout =
      ["inferred_topics", "search_queries", "example_related_work"] := by
  cases hr : ag.research text with
  | error e =>
    rw [analyze_research_err ag text e parallel hr] at h
    exact absurd h (by simp)
  | ok raw =>
    cases parallel with
    | true =>
      rw [analyze_parallel_eq ag text raw hr] at h
      simp only [Except.ok.injEq] at h
      rw [← h]
      refine ⟨?_, ?_, ?_⟩
      · rw [show (⟨parse_research_structure raw, (analyze_downstream_parallel ag raw).1,
            (analyze_downstream_parallel ag raw).2⟩ : AnalysisResult).research_structure =
            parse_research_structure raw from rfl,
          parse_research_structure_keys, default_research_structure_keys]
      · rw [show (⟨parse_research_structure raw, (analyze_downstream_parallel ag raw).1,
            (analyze_downstream_parallel ag raw).2⟩ : AnalysisResult).validity_threats =
            (analyze_downstream_parallel ag raw).1 from rfl,
          parallel_validity_keys, default_validity_threats_keys]
      · rw [show (⟨parse_research_structure raw, (analyze_downstream_parallel ag raw).1,
            (analyze_downstream_parallel ag raw).2⟩ : AnalysisResult).literature_scout =
            (analyze_downstream_parallel ag raw).2 from rfl,
          parallel_literature_keys, default_literature_scout_keys]
    | false =>
      rw [analyze_sequential_eq ag text raw hr] at h
      cases hv : ag.validity raw with
      | error e =>
        rw [sequential_err_validity ag raw e hv] at h
        exact absurd h (by simp [Except.map])
      | ok vs =>
        cases hl : ag.literature raw with
        | error e =>
          rw [sequential_err_literature ag raw vs e hv hl] at h
          exact absurd h (by simp [Except.map])
        | ok ls =>
          rw [sequential_ok ag raw vs ls hv hl] at h
          simp only [Except.map, Except.ok.injEq] at h
          rw [← h]
          exact ⟨by rw [show (⟨parse_research_structure raw, parse_validity_threats vs,
              parse_literature_scout ls⟩ : AnalysisResult).research_structure =
              parse_research_structure raw from rfl,
              parse_research_structure_keys, default_research_structure_keys],
            by rw [show (⟨parse_research_structure raw, parse_validity_threats vs,
              parse_literature_scout ls⟩ : AnalysisResult).validity_threats =
              parse_validity_threats vs from rfl,
              parse_validity_threats_keys, default_validity_threats_keys],
            by rw [show (⟨parse_research_structure raw, parse_validity_threats vs,
              parse_literature_scout ls⟩ : AnalysisResult).literature_scout =
              parse_literature_scout ls from rfl,
              parse_literature_scout_keys, default_literature_scout_keys]⟩

/-- Witness for C1 at a concrete agent triple, text, and both flag values. -/
theorem c1_analyze_fully_shaped_witness :
    analyze okAgents "t" true = Except.ok
      ⟨default_research_structure none, default_validity_threats none,
       default_literature_scout none⟩ ∧
    analyze okAgents "t" false = Except.ok
      ⟨default_research_structure none, default_validity_threats none,
       default_literature_scout none⟩ ∧
    dictKeys (default_research_structure none) =
      ["research_question", "hypothesis", "method", "variables", "dataset",
       "evaluation", "missing_elements"] ∧
    dictKeys (default_validity_threats none) =
      ["internal_validity", "external_validity", "construct_validity",
       "conclusion_validity", "mitigation_suggestions"] :=
  ⟨rfl, rfl,
   (c1_analyze_fully_shaped okAgents "t" true
     ⟨default_research_structure none, default_validity_threats none,
      default_literature_scout none⟩ rfl).1,
   (c1_analyze_fully_shaped okAgents "t" false
     ⟨default_research_structure none, default_validity_threats none,
      default_literature_scout none⟩ rfl).2.1⟩

/-- C2: for every record kind, parse is total on the four probe inputs:
parsing an empty JSON object returns the all-defaults instance unchanged,
while the empty string, non-JSON text, and a JSON array each return the
all-defaults instance with exactly one explanatory note appended to that
kind's designated notes field, the invalid-JSON notes including the parse
error text reported by the JSON parser. -/
theorem c2_parse_total_defaults :
    (parse_research_structure "\x7b\x7d" = default_research_structure none ∧
     parse_validity_threats "\x7b\x7d" = default_validity_threats none ∧
     parse_literature_scout "\x7b\x7d" = default_literature_scout none) ∧
    (loads "" = Except.error "Expecting value" ∧
     parse_research_structure "" =
       default_research_structure (some ("Failed to parse research structure: " ++ "Expecting value")) ∧
     parse_validity_threats "" =
       default_validity_threats (some ("Failed to parse validity threats: " ++ "Expecting value")) ∧
     parse_literature_scout "" =
       default_literature_scout (some ("Failed to parse literature scout: " ++ "Expecting value"))) ∧
    (loads "not json" = Except.error "Expecting value" ∧
     parse_research_structure "not json" =
       default_research_structure (some ("Failed to parse research structure: " ++ "Expecting value")) ∧
     parse_validity_threats "not json" =
       default_validity_threats (some ("Failed to parse validity threats: " ++ "Expecting value")) ∧
     parse_literature_scout "not json" =
       default_literature_scout (some ("Failed to parse literature scout: " ++ "Expecting value"))) ∧
    (parse_research_structure "[]" =
       default_research_structure (some "Failed to parse research structure: JSON is not an object") ∧
     parse_validity_threats "[]" =
       default_validity_threats (some "Failed to parse validity threats: JSON is not an object") ∧
     parse_literature_scout "[]" =
       default_literature_scout (some "Failed to parse literature scout: JSON is not an object")) :=
  ⟨⟨rfl, rfl, rfl⟩, ⟨rfl, rfl, rfl, rfl⟩, ⟨rfl, rfl, rfl, rfl⟩, ⟨rfl, rfl, rfl⟩⟩

/-- Counterexample to C3 as stated: in the all-defaults research-structure
record, the string-valued field research_question holds the string
"Not specified", not the empty string. -/
theorem c3_counterexample :
    dictLookup "research_question" (default_research_structure none) =
      some (Json.str "Not specified") ∧
    Json.str "Not specified" ≠ Json.str "" := by
  refine ⟨rfl, fun h => ?_⟩
  injection h with h2
  exact absurd h2 (by decide)

/-- C3 amended: every sequence-valued field of every all-defaults record is
the empty sequence, and every string-valued field (they occur only in the
research-structure kind) defaults to the string "Not specified", not the
empty string. -/
theorem c3_amended_defaults :
    default_research_structure none =
      [("research_question", Json.str "Not specified"),
       ("hypothesis", Json.str "Not specified"),
       ("method", Json.str "Not specified"),
       ("variables", Json.arr []),
       ("dataset", Json.str "Not specified"),
       ("evaluation", Json.str "Not specified"),
       ("missing_elements", Json.arr [])] ∧
    default_validity_threats none =
      [("internal_validity", Json.arr []),
       ("external_validity", Json.arr []),
       ("construct_validity", Json.arr []),
       ("conclusion_validity", Json.arr []),
       ("mitigation_suggestions", Json.arr [])] ∧
    default_literature_scout none =
      [("inferred_topics", Json.arr []),
       ("search_queries", Json.arr []),
       ("example_related_work", Json.arr [])] :=
  ⟨rfl, rfl, rfl⟩

/-- C4: when a downstream extraction call raises, analyze with
parallel=True still returns a fully-populated AnalysisResult whose failed
stage record is the all-defaults record with an "Error: ..." note, while
analyze with parallel=False propagates the exception; a Stage-1 exception
propagates in both modes. -/
theorem c4_mode_divergence_on_failure (ag : Agents) (text : String) :
    (∀ raw e, ag.research text = Except.ok raw → ag.validity raw = Except.error e →
       analyze ag text true = Except.ok
         ⟨parse_research_structure raw,
          default_validity_threats (some ("Error: " ++ e)),
          (analyze_downstream_parallel ag raw).2⟩ ∧
       dictKeys (analyze_downstream_parallel ag raw).2 =
         dictKeys (default_literature_scout none) ∧
       analyze ag text false = Except.error e) ∧
    (∀ raw vs e, ag.research text = Except.ok raw → ag.validity raw = Except.ok vs →
       ag.literature raw = Except.error e →
       analyze ag text true = Except.ok
         ⟨parse_research_structure raw, parse_validity_threats vs,
          default_literature_scout (some ("Error: " ++ e))⟩ ∧
       analyze ag text false = Except.error e) ∧
    (∀ e p, ag.research text = Except.error e → analyze ag text p = Except.error e) := by
  refine ⟨?_, ?_, ?_⟩
  · intro raw e hr hv
    refine ⟨?_, parallel_literature_keys ag raw, ?_⟩
    · rw [analyze_parallel_eq ag text raw hr, parallel_validity_err ag raw e hv]
    · rw [analyze_sequential_eq ag text raw hr, sequential_err_validity ag raw e hv]
      rfl
  · intro raw vs e hr hv hl
    constructor
    · rw [analyze_parallel_eq ag text raw hr, parallel_validity_ok ag raw vs hv,
        parallel_literature_err ag raw e hl]
    · rw [analyze_sequential_eq ag text raw hr, sequential_err_literature ag raw vs e hv hl]
      rfl
  · intro e p hr
    exact analyze_research_err ag text e p hr

/-- Witness for C4: a concrete always-failing validity agent diverges
between the two modes, and a concrete failing stage-1 agent is fatal. -/
theorem c4_mode_divergence_witness :
    analyze failValidityAgents "t" true = Except.ok
      ⟨default_research_structure none,
       default_validity_threats (some ("Error: " ++ "boom")),
       default_literature_scout none⟩ ∧
    analyze failValidityAgents "t" false = Except.error "boom" ∧
    analyze failResearchAgents "t" true = Except.error "down" ∧
    analyze failResearchAgents "t" false = Except.error "down" := by
  have h1 := (c4_mode_divergence_on_failure failValidityAgents "t").1 "\x7b\x7d" "boom" rfl rfl
  have h2 := (c4_mode_divergence_on_failure failResearchAgents "t").2.2 "down" true rfl
  have h3 := (c4_mode_divergence_on_failure failResearchAgents "t").2.2 "down" false rfl
  exact ⟨h1.1, h1.2.2, h2, h3⟩

/-- C5: when the extraction calls are pure functions and both downstream
calls succeed, analyze with parallel=True and analyze with parallel=False
return identical results. -/
theorem c5_mode_equivalence_on_success (ag : Agents) (text raw vs ls : String)
    (hr : ag.research text = Except.ok raw) (hv : ag.validity raw = Except.ok vs)
    (hl : ag.literature raw = Except.ok ls) :
    analyze ag text true = analyze ag text false := by
  rw [analyze_parallel_eq ag text raw hr, analyze_sequential_eq ag text raw hr,
    sequential_ok ag raw vs ls hv hl, parallel_validity_ok ag raw vs hv,
    parallel_literature_ok ag raw ls hl]
  rfl

/-- Witness for C5 at a concrete succeeding agent triple. -/
theorem c5_mode_equivalence_witness :
    analyze okAgents "t" true = analyze okAgents "t" false :=
  c5_mode_equivalence_on_success okAgents "t" "\x7b\x7d" "\x7b\x7d" "\x7b\x7d" rfl rfl rfl

/-- C6: the input passed to the downstream stages is the raw stage-1 output,
verbatim (even when it is malformed JSON), not the parsed record: any two
agent triples that agree on stage 1 and whose downstream agents agree at
the raw stage-1 output produce identical analyze results. -/
theorem c6_downstream_input_verbatim (ag ag2 : Agents) (text raw : String) (p : Bool)
    (hr : ag.research text = Except.ok raw) (hr2 : ag2.research text = Except.ok raw)
    (hv : ag2.validity raw = ag.validity raw) (hl : ag2.literature raw = ag.literature raw) :
    analyze ag2 text p = analyze ag text p := by
  cases p with
  | true =>
    rw [analyze_parallel_eq ag text raw hr, analyze_parallel_eq ag2 text raw hr2]
    unfold analyze_downstream_parallel
    rw [hv, hl]
  | false =>
    rw [analyze_sequential_eq ag text raw hr, analyze_sequential_eq ag2 text raw hr2]
    unfold analyze_downstream_sequential
    rw [hv, hl]

/-- Witness for C6: two concrete agent triples agreeing at the (malformed,
non-JSON) stage-1 raw output produce the same result. -/
theorem c6_downstream_input_witness :
    analyze ⟨fun _ => Except.ok "not json",
             fun s => if s = "not json" then Except.ok "\x7b\x7d" else Except.error "other",
             fun _ => Except.ok "\x7b\x7d"⟩ "t" true =
    analyze ⟨fun _ => Except.ok "not json",
             fun _ => Except.ok "\x7b\x7d",
             fun _ => Except.ok "\x7b\x7d"⟩ "t" true :=
  c6_downstream_input_verbatim
    ⟨fun _ => Except.ok "not json", fun _ => Except.ok "\x7b\x7d",
     fun _ => Except.ok "\x7b\x7d"⟩
    ⟨fun _ => Except.ok "not json",
     fun s => if s = "not json" then Except.ok "\x7b\x7d" else Except.error "other",
     fun _ => Except.ok "\x7b\x7d"⟩
    "t" "not json" true rfl rfl (by simp) rfl

/-- C7: for every record kind and every input that is valid JSON encoding a
top-level object, parse returns the all-defaults instance with exactly the
fields named by the object's keys overwritten; unknown keys are dropped and
missing keys keep their defaults. Concretely, a structure-kind parse of an
object with research_question "Q" and an unknown key "bogus" yields
research_question = "Q", all other fields at default, and no "bogus" key. -/
theorem c7_known_key_merge :
    (∀ s kvs, loads s = Except.ok (Json.obj kvs) →
      dictKeys (parse_research_structure s) = dictKeys (default_research_structure none) ∧
      ∀ k, dictLookup k (parse_research_structure s) =
        match dictLookup k kvs with
        | some v => if k ∈ dictKeys (default_research_structure none) then some v else none
        | none => dictLookup k (default_research_structure none)) ∧
    (∀ s kvs, loads s = Except.ok (Json.obj kvs) →
      dictKeys (parse_validity_threats s) = dictKeys (default_validity_threats none) ∧
      ∀ k, dictLookup k (parse_validity_threats s) =
        match dictLookup k kvs with
        | some v => if k ∈ dictKeys (default_validity_threats none) then some v else none
        | none => dictLookup k (default_validity_threats none)) ∧
    (∀ s kvs, loads s = Except.ok (Json.obj kvs) →
      dictKeys (parse_literature_scout s) = dictKeys (default_literature_scout none) ∧
      ∀ k, dictLookup k (parse_literature_scout s) =
        match dictLookup k kvs with
        | some v => if k ∈ dictKeys (default_literature_scout none) then some v else none
        | none => dictLookup k (default_literature_scout none)) ∧
    (parse_research_structure "\x7b\"research_question\": \"Q\", \"bogus\": \"x\"\x7d" =
      [("research_question", Json.str "Q"),
       ("hypothesis", Json.str "Not specified"),
       ("method", Json.str "Not specified"),
       ("variables", Json.arr []),
       ("dataset", Json.str "Not specified"),
       ("evaluation", Json.str "Not specified"),
       ("missing_elements", Json.arr [])] ∧
     "bogus" ∉ dictKeys
       (parse_research_structure "\x7b\"research_question\": \"Q\", \"bogus\": \"x\"\x7d")) := by
  refine ⟨?_, ?_, ?_, rfl, by decide⟩
  · intro s kvs hload
    refine ⟨parse_research_structure_keys s, fun k => ?_⟩
    unfold parse_research_structure
    rw [hload]
    exact merge_defaults_lookup kvs _ (loads_obj_nodup s kvs hload) k
  · intro s kvs hload
    refine ⟨parse_validity_threats_keys s, fun k => ?_⟩
    unfold parse_validity_threats
    rw [hload]
    exact merge_defaults_lookup kvs _ (loads_obj_nodup s kvs hload) k
  · intro s kvs hload
    refine ⟨parse_literature_scout_keys s, fun k => ?_⟩
    unfold parse_literature_scout
    rw [hload]
    exact merge_defaults_lookup kvs _ (loads_obj_nodup s kvs hload) k

/-- Witness for C7 at a concrete valid-JSON object input. -/
theorem c7_known_key_merge_witness :
    dictLookup "hypothesis"
      (parse_research_structure "\x7b\"research_question\": \"Q\"\x7d") =
      some (Json.str "Not specified") ∧
    dictLookup "research_question"
      (parse_research_structure "\x7b\"research_question\": \"Q\"\x7d") =
      some (Json.str "Q") := by
  have h := (c7_known_key_merge.1 "\x7b\"research_question\": \"Q\"\x7d"
    [("research_question", Json.str "Q")] rfl).2
  refine ⟨?_, ?_⟩
  · rw [h "hypothesis"]
    rfl
  · rw [h "research_question"]
    rfl

/-- Counterexample to C8 as stated: supplying the non-string value 5 for
the string-valued field research_question yields a record whose
research_question field holds the number 5, not a string. -/
theorem c8_counterexample :
    dictLookup "research_question"
      (parse_research_structure "\x7b\"research_question\": 5\x7d") =
      some (Json.num 5) ∧
    isStringValue (Json.num 5) = false :=
  ⟨rfl, rfl⟩

/-- C8 amended: for every record kind, the value supplied for a known key
in a parsed JSON object is copied into the record verbatim, whatever its
JSON type; no type validation or coercion to the schema field types is
performed. -/
theorem c8_amended_verbatim_values :
    (∀ s kvs k v, loads s = Except.ok (Json.obj kvs) → dictLookup k kvs = some v →
       k ∈ dictKeys (default_research_structure none) →
       dictLookup k (parse_research_structure s) = some v) ∧
    (∀ s kvs k v, loads s = Except.ok (Json.obj kvs) → dictLookup k kvs = some v →
       k ∈ dictKeys (default_validity_threats none) →
       dictLookup k (parse_validity_threats s) = some v) ∧
    (∀ s kvs k v, loads s = Except.ok (Json.obj kvs) → dictLookup k kvs = some v →
       k ∈ dictKeys (default_literature_scout none) →
       dictLookup k (parse_literature_scout s) = some v) := by
  refine ⟨?_, ?_, ?_⟩
  · intro s kvs k v hload hk hmem
    unfold parse_research_structure
    rw [hload, merge_defaults_lookup kvs _ (loads_obj_nodup s kvs hload) k, hk]
    simp [hmem]
  · intro s kvs k v hload hk hmem
    unfold parse_validity_threats
    rw [hload, merge_defaults_lookup kvs _ (loads_obj_nodup s kvs hload) k, hk]
    simp [hmem]
  · intro s kvs k v hload hk hmem
    unfold parse_literature_scout
    rw [hload, merge_defaults_lookup kvs _ (loads_obj_nodup s kvs hload) k, hk]
    simp [hmem]

/-- Witness for the amended C8 at a concrete ill-typed value. -/
theorem c8_amended_witness :
    dictLookup "variables" (parse_research_structure "\x7b\"variables\": 7\x7d") =
      some (Json.num 7) :=
  c8_amended_verbatim_values.1 "\x7b\"variables\": 7\x7d" [("variables", Json.num 7)]
    "variables" (Json.num 7) rfl rfl (by decide)

/-- C10: the /analyze endpoint validates the payload's parallel field as a
boolean (defaulting to true when absent) but always invokes the
orchestrator with parallel=False, so the caller-supplied flag never
affects scheduling and the concurrent path is unreachable through the
endpoint. -/
theorem c10_endpoint_forces_sequential :
    (∀ (ag : Agents) (payload : Dict) (t : String) (p : Bool),
       dictLookup "text" payload = some (Json.str t) → ¬ pyStrip t = "" →
       dictLookup "parallel" payload = some (Json.bool p) →
       analyze_research ag payload = Except.ok (analyze ag t false)) ∧
    (∀ (ag : Agents) (payload : Dict) (t : String),
       dictLookup "text" payload = some (Json.str t) → ¬ pyStrip t = "" →
       dictLookup "parallel" payload = none →
       analyze_research ag payload = Except.ok (analyze ag t false)) ∧
    (∀ (ag : Agents) (payload : Dict) (t : String) (v : Json),
       dictLookup "text" payload = some (Json.str t) → ¬ pyStrip t = "" →
       dictLookup "parallel" payload = some v → isBoolValue v = false →
       analyze_research ag payload =
         Except.error (400, "Field \x27parallel\x27 must be a boolean")) := by
  refine ⟨?_, ?_, ?_⟩
  · intro ag payload t p htext htrim hpar
    unfold analyze_research dictGetD
    rw [htext, hpar]
    simp [htrim]
  · intro ag payload t htext htrim hpar
    unfold analyze_research dictGetD
    rw [htext, hpar]
    simp [htrim]
  · intro ag payload t v htext htrim hpar hb
    unfold analyze_research dictGetD
    rw [htext, hpar]
    cases v <;> simp [isBoolValue] at hb ⊢ <;> simp [htrim]

/-- Witness for C10: a concrete payload requesting parallel=true is served
with the sequential mode. -/
theorem c10_endpoint_witness :
    analyze_research okAgents [("text", Json.str "hi"), ("parallel", Json.bool true)] =
      Except.ok (analyze okAgents "hi" false) :=
  c10_endpoint_forces_sequential.1 okAgents
    [("text", Json.str "hi"), ("parallel", Json.bool true)] "hi" true rfl (by decide) rfl
